import Mathlib

/-!
Shallow embedding of the crypto-signal bot (`src/main.py`).

Numbers are modelled as exact rationals.  Values that pandas may turn into
NaN or ±infinity (RSI chain, ATR chain, rolling means) are modelled by the
type `FVal` below, whose arithmetic follows IEEE/pandas semantics for the
operations the program performs: NaN propagates, positive/0 gives +inf,
0/0 gives NaN, comparisons with NaN are false, and a row-wise max skips
NaN entries (pandas `DataFrame.max(axis=1)` with the default `skipna`).
-/

set_option maxRecDepth 4000

/- Batteries marks the rational-number operations `@[irreducible]`, which
blocks `decide` on concrete rational computations; the kernel itself unfolds
them regardless, so restoring default reducibility is sound and lets the
development evaluate the embedded program on concrete candle series. -/
set_option allowUnsafeReducibility true
attribute [local semireducible] Rat.mul Rat.inv Rat.add Rat.sub Rat.ofScientific

/-- A pandas float value: a rational, NaN, or ±infinity. -/
inductive FVal where
  | nan : FVal
  | num : ℚ → FVal
  | pinf : FVal
  | ninf : FVal
deriving DecidableEq

namespace FVal

def neg : FVal → FVal
  | nan => nan
  | num q => num (-q)
  | pinf => ninf
  | ninf => pinf

def add : FVal → FVal → FVal
  | nan, _ => nan
  | num _, nan => nan
  | num a, num b => num (a + b)
  | num _, pinf => pinf
  | num _, ninf => ninf
  | pinf, nan => nan
  | pinf, num _ => pinf
  | pinf, pinf => pinf
  | pinf, ninf => nan
  | ninf, nan => nan
  | ninf, num _ => ninf
  | ninf, pinf => nan
  | ninf, ninf => ninf

def sub (a b : FVal) : FVal := add a (neg b)

def mul : FVal → FVal → FVal
  | nan, _ => nan
  | num _, nan => nan
  | num a, num b => num (a * b)
  | num a, pinf => if 0 < a then pinf else if a < 0 then ninf else nan
  | num a, ninf => if 0 < a then ninf else if a < 0 then pinf else nan
  | pinf, nan => nan
  | pinf, num b => if 0 < b then pinf else if b < 0 then ninf else nan
  | pinf, pinf => pinf
  | pinf, ninf => ninf
  | ninf, nan => nan
  | ninf, num b => if 0 < b then ninf else if b < 0 then pinf else nan
  | ninf, pinf => ninf
  | ninf, ninf => pinf

def div : FVal → FVal → FVal
  | nan, _ => nan
  | num _, nan => nan
  | num a, num b =>
      if b ≠ 0 then num (a / b)
      else if 0 < a then pinf
      else if a < 0 then ninf
      else nan
  | num _, pinf => num 0
  | num _, ninf => num 0
  | pinf, nan => nan
  | pinf, num b => if 0 ≤ b then pinf else ninf
  | pinf, pinf => nan
  | pinf, ninf => nan
  | ninf, nan => nan
  | ninf, num b => if 0 ≤ b then ninf else pinf
  | ninf, pinf => nan
  | ninf, ninf => nan

/-- Strict less-than as IEEE comparison: any comparison with NaN is false. -/
def blt : FVal → FVal → Bool
  | nan, _ => false
  | num _, nan => false
  | num a, num b => decide (a < b)
  | num _, pinf => true
  | num _, ninf => false
  | pinf, _ => false
  | ninf, nan => false
  | ninf, ninf => false
  | ninf, num _ => true
  | ninf, pinf => true

def fabs : FVal → FVal
  | nan => nan
  | num q => num (abs q)
  | pinf => pinf
  | ninf => pinf

/-- Max of two non-NaN values (used after NaN entries have been filtered). -/
def fmax (a b : FVal) : FVal := if blt a b then b else a

def isNan : FVal → Bool
  | nan => true
  | _ => false

end FVal

/-- Round a rational to the nearest integer, ties to even (Python `round`). -/
def rhe (x : ℚ) : ℤ :=
  let f := ⌊x⌋
  let r := x - (f : ℚ)
  if r < 1/2 then f
  else if 1/2 < r then f + 1
  else if f % 2 = 0 then f else f + 1

/-- Python `round(x, k)` on an exact rational. -/
def roundq (k : ℕ) (x : ℚ) : ℚ := ((rhe (x * 10 ^ k) : ℚ)) / 10 ^ k

/-- `round(·, k)` lifted to pandas values: NaN and infinities pass through. -/
def FVal.roundF (k : ℕ) : FVal → FVal
  | .num q => .num (roundq k q)
  | v => v

/-- Row-wise maximum that skips NaN entries, NaN when all entries are NaN
(pandas `DataFrame.max(axis=1)`). -/
def fmaxRow (l : List FVal) : FVal :=
  match l.filter (fun v => decide (v ≠ FVal.nan)) with
  | [] => FVal.nan
  | x :: xs => xs.foldl FVal.fmax x

/-! ### Series operations (pandas on a numeric column) -/

/-- `series.diff()`: NaN at index 0, `s[i] - s[i-1]` afterwards. -/
def diffS (s : List ℚ) : List FVal :=
  (List.range s.length).map (fun i =>
    if i = 0 then FVal.nan else FVal.num (s.getD i 0 - s.getD (i - 1) 0))

/-- `series.clip(lower=0)`. -/
def clipLower0 : FVal → FVal
  | .nan => .nan
  | .num q => .num (max q 0)
  | .pinf => .pinf
  | .ninf => .num 0

/-- `-series.clip(upper=0)`. -/
def negClipUpper0 : FVal → FVal
  | .nan => .nan
  | .num q => .num (-(min q 0))
  | .pinf => .num 0
  | .ninf => .pinf

/-- The window of the rolling aggregate ending at index `i`. -/
def windowAt (n i : ℕ) (s : List FVal) : List FVal := (s.drop (i + 1 - n)).take n

/-- `series.rolling(n).mean()` with the default `min_periods = n`: NaN while
the window is short or contains a NaN, otherwise the window mean. -/
def rollingMean (n : ℕ) (s : List FVal) : List FVal :=
  (List.range s.length).map (fun i =>
    if i + 1 < n then FVal.nan
    else if (windowAt n i s).any FVal.isNan then FVal.nan
    else FVal.div ((windowAt n i s).foldl FVal.add (FVal.num 0)) (FVal.num (n : ℚ)))

/-- `series.ewm(span, adjust=False).mean()` after the first element:
`y_i = (1-α)·y_{i-1} + α·x_i`. -/
def ewmUnadjAux (a : ℚ) : List ℚ → ℚ → List ℚ
  | [], _ => []
  | x :: xs, prev =>
      let y := (1 - a) * prev + a * x
      y :: ewmUnadjAux a xs y

/-- `series.ewm(span=span, adjust=False).mean()` with `α = 2/(span+1)`. -/
def ewmUnadj (span : ℕ) (s : List ℚ) : List ℚ :=
  match s with
  | [] => []
  | x :: xs => x :: ewmUnadjAux (2 / ((span : ℚ) + 1)) xs x

/-- `series.ewm(span, adjust=True).mean()` via the running weighted numerator
and denominator: `y_i = (Σ β^j x_{i-j}) / (Σ β^j)` with `β = 1-α`. -/
def ewmAdjAux (b : ℚ) : List ℚ → ℚ → ℚ → List ℚ
  | [], _, _ => []
  | x :: xs, nprev, dprev =>
      let n := b * nprev + x
      let d := b * dprev + 1
      (n / d) :: ewmAdjAux b xs n d

/-- `series.ewm(span=span).mean()` (pandas default `adjust=True`). -/
def ewmAdj (span : ℕ) (s : List ℚ) : List ℚ :=
  ewmAdjAux (1 - 2 / ((span : ℚ) + 1)) s 0 0

/-! ### Indicator functions (`calculate_rsi`, `calculate_macd`, `calculate_atr`) -/

/-- `gain.rolling(period).mean()` of `calculate_rsi` (period 14 at call site). -/
def rsiAvgGain (series : List ℚ) (period : ℕ) : List FVal :=
  rollingMean period ((diffS series).map clipLower0)

/-- `loss.rolling(period).mean()` of `calculate_rsi`. -/
def rsiAvgLoss (series : List ℚ) (period : ℕ) : List FVal :=
  rollingMean period ((diffS series).map negClipUpper0)

/-- `calculate_rsi` from `src/main.py`: `100 - 100/(1 + avg_gain/avg_loss)`. -/
def calculate_rsi (series : List ℚ) (period : ℕ) : List FVal :=
  let rs := List.zipWith FVal.div (rsiAvgGain series period) (rsiAvgLoss series period)
  rs.map (fun r =>
    FVal.sub (FVal.num 100) (FVal.div (FVal.num 100) (FVal.add (FVal.num 1) r)))

/-- `calculate_macd` from `src/main.py`: MACD line `ewm(fast) - ewm(slow)`
(`adjust=False`) and its `ewm(signal, adjust=False)` signal line. -/
def calculate_macd (close : List ℚ) (fast slow signal : ℕ) : List ℚ × List ℚ :=
  let exp1 := ewmUnadj fast close
  let exp2 := ewmUnadj slow close
  let macd_line := List.zipWith (fun a b => a - b) exp1 exp2
  let signal_line := ewmUnadj signal macd_line
  (macd_line, signal_line)

/-- `df['close'].shift()`: NaN at index 0, previous close afterwards. -/
def prev_close (close : List ℚ) : List FVal :=
  (List.range close.length).map (fun i =>
    if i = 0 then FVal.nan else FVal.num (close.getD (i - 1) 0))

/-- The True Range rows of `calculate_atr`: row-wise max (skipping NaN) of
`high-low`, `|high-prev_close|`, `|low-prev_close|`. -/
def trueRange (high low close : List ℚ) : List FVal :=
  (List.range close.length).map (fun i =>
    fmaxRow [FVal.num (high.getD i 0 - low.getD i 0),
             FVal.fabs (FVal.sub (FVal.num (high.getD i 0)) ((prev_close close).getD i FVal.nan)),
             FVal.fabs (FVal.sub (FVal.num (low.getD i 0)) ((prev_close close).getD i FVal.nan))])

/-- `calculate_atr` from `src/main.py`: rolling mean of the True Range. -/
def calculate_atr (high low close : List ℚ) (period : ℕ) : List FVal :=
  rollingMean period (trueRange high low close)

/-! ### The analysis data model -/

/-- One OHLCV candle (the fields `analyze_coin` reads). -/
structure Candle where
  high : ℚ
  low : ℚ
  close : ℚ
  volume : ℚ
deriving DecidableEq

/-- The signal classification of `analyze_coin`'s message. -/
inductive Sig where
  | noSignal : Sig
  | longFull : Sig
  | longLowVolume : Sig
  | shortFull : Sig
  | shortLowVolume : Sig
deriving DecidableEq

/-- The risk levels reported with a directional signal (rounded to 4 decimals
in the source). -/
structure RiskLevels where
  entry_price_min : FVal
  entry_price_max : FVal
  stop_loss : FVal
  target_price : FVal
deriving DecidableEq

/-- Result of `analyze_coin`: the two early returns, or an analysis with a
signal classification and, when directional, the risk levels. -/
inductive Outcome where
  | insufficientData : Outcome
  | noLivePrice : Outcome
  | analyzed : Sig → Option RiskLevels → Outcome
deriving DecidableEq

def Sig.isLong : Sig → Bool
  | .longFull => true
  | .longLowVolume => true
  | _ => false

def Sig.isShort : Sig → Bool
  | .shortFull => true
  | .shortLowVolume => true
  | _ => false

def Outcome.isLongSignal : Outcome → Bool
  | .analyzed s _ => s.isLong
  | _ => false

def Outcome.isShortSignal : Outcome → Bool
  | .analyzed s _ => s.isShort
  | _ => false

/-! ### `analyze_coin` -/

def close_of (candles : List Candle) : List ℚ := candles.map Candle.close

def volume_of (candles : List Candle) : List ℚ := candles.map Candle.volume

/-- `df["ema20"] = df["close"].ewm(span=20).mean()` (pandas default adjust). -/
def ema20_series (candles : List Candle) : List ℚ := ewmAdj 20 (close_of candles)

/-- `df["ema50"] = df["close"].ewm(span=50).mean()`. -/
def ema50_series (candles : List Candle) : List ℚ := ewmAdj 50 (close_of candles)

def ema20_last (candles : List Candle) : ℚ :=
  (ema20_series candles).getD (candles.length - 1) 0

def ema50_last (candles : List Candle) : ℚ :=
  (ema50_series candles).getD (candles.length - 1) 0

/-- `rsi = round(last["rsi"], 1)` in `analyze_coin`. -/
def rsi_last (candles : List Candle) : FVal :=
  FVal.roundF 1 ((calculate_rsi (close_of candles) 14).getD (candles.length - 1) FVal.nan)

def vol_last (candles : List Candle) : ℚ :=
  (volume_of candles).getD (candles.length - 1) 0

def vol_avg_last (candles : List Candle) : FVal :=
  (rollingMean 20 ((volume_of candles).map FVal.num)).getD (candles.length - 1) FVal.nan

def macd_last (candles : List Candle) : ℚ :=
  (calculate_macd (close_of candles) 12 26 9).1.getD (candles.length - 1) 0

def macd_signal_last (candles : List Candle) : ℚ :=
  (calculate_macd (close_of candles) 12 26 9).2.getD (candles.length - 1) 0

def atr_last (candles : List Candle) : FVal :=
  (calculate_atr (candles.map Candle.high) (candles.map Candle.low)
      (close_of candles) 14).getD (candles.length - 1) FVal.nan

/-- `all(last3["ema20"] > last3["ema50"])` over `df.tail(3)`. -/
def trend_up_b (candles : List Candle) : Bool :=
  (List.zip ((ema20_series candles).drop (candles.length - 3))
            ((ema50_series candles).drop (candles.length - 3))).all
    (fun ab => decide (ab.2 < ab.1))

/-- `all(last3["ema20"] < last3["ema50"])`. -/
def trend_down_b (candles : List Candle) : Bool :=
  (List.zip ((ema20_series candles).drop (candles.length - 3))
            ((ema50_series candles).drop (candles.length - 3))).all
    (fun ab => decide (ab.1 < ab.2))

/-- `high_volume = vol > 1.5 * vol_avg`. -/
def high_volume_b (candles : List Candle) : Bool :=
  FVal.blt (FVal.mul (FVal.num (3/2)) (vol_avg_last candles)) (FVal.num (vol_last candles))

/-- The long entry condition of `analyze_coin` (buffer 0.001, rounded RSI). -/
def long_gate (candles : List Candle) (live_price : ℚ) : Bool :=
  decide (ema20_last candles * (1 + 1/1000) < live_price) &&
  decide (ema50_last candles * (1 + 1/1000) < live_price) &&
  FVal.blt (FVal.num 55) (rsi_last candles) &&
  trend_up_b candles &&
  decide (macd_signal_last candles < macd_last candles)

/-- The short entry condition of `analyze_coin`. -/
def short_gate (candles : List Candle) (live_price : ℚ) : Bool :=
  decide (live_price < ema20_last candles * (1 - 1/1000)) &&
  decide (live_price < ema50_last candles * (1 - 1/1000)) &&
  FVal.blt (rsi_last candles) (FVal.num 45) &&
  trend_down_b candles &&
  decide (macd_last candles < macd_signal_last candles)

/-- Risk levels of the long branch: entry range `[ema20, ema20*1.002]`,
`SL = live - 1.2*atr`, `TP = live + 2*atr`, all rounded to 4 decimals. -/
def long_risk (candles : List Candle) (live_price : ℚ) : RiskLevels :=
  { entry_price_min := FVal.num (roundq 4 (ema20_last candles))
  , entry_price_max := FVal.num (roundq 4 (ema20_last candles * (1002/1000)))
  , stop_loss := FVal.roundF 4 (FVal.sub (FVal.num live_price)
      (FVal.mul (FVal.num (6/5)) (atr_last candles)))
  , target_price := FVal.roundF 4 (FVal.add (FVal.num live_price)
      (FVal.mul (FVal.num 2) (atr_last candles))) }

/-- Risk levels of the short branch: entry range `[ema20*0.998, ema20]`,
`SL = live + 1.2*atr`, `TP = live - 2*atr`, all rounded to 4 decimals. -/
def short_risk (candles : List Candle) (live_price : ℚ) : RiskLevels :=
  { entry_price_min := FVal.num (roundq 4 (ema20_last candles * (998/1000)))
  , entry_price_max := FVal.num (roundq 4 (ema20_last candles))
  , stop_loss := FVal.roundF 4 (FVal.add (FVal.num live_price)
      (FVal.mul (FVal.num (6/5)) (atr_last candles)))
  , target_price := FVal.roundF 4 (FVal.sub (FVal.num live_price)
      (FVal.mul (FVal.num 2) (atr_last candles))) }

/-- `analyze_coin` from `src/main.py`: the insufficient-data and missing-price
early returns, then the long/short/no-signal classification with the
volume-confirmation downgrade. -/
def analyze_coin (candles : List Candle) (live : Option ℚ)
    (require_high_volume : Bool) : Outcome :=
  if candles.length < 50 then .insufficientData
  else
    match live with
    | none => .noLivePrice
    | some live_price =>
      if long_gate candles live_price then
        .analyzed
          (if high_volume_b candles || !require_high_volume then .longFull
           else .longLowVolume)
          (some (long_risk candles live_price))
      else if short_gate candles live_price then
        .analyzed
          (if high_volume_b candles || !require_high_volume then .shortFull
           else .shortLowVolume)
          (some (short_risk candles live_price))
      else .analyzed .noSignal none

/-- The `__main__` loop: each symbol of the list is analyzed independently
against the one fetched price mapping. -/
def run_all (symbols : List String) (prices : String → Option ℚ)
    (candlesOf : String → List Candle) (require_high_volume : Bool) : List Outcome :=
  symbols.map (fun sym => analyze_coin (candlesOf sym) (prices sym) require_high_volume)

/-! ### Concrete candle series used as witnesses and counterexamples -/

/-- 50 candles with close rising 1,2,…,50 and constant volume 1. -/
def exLong : List Candle :=
  (List.range 50).map (fun i => ⟨(i : ℚ) + 1, (i : ℚ) + 1, (i : ℚ) + 1, 1⟩)

/-- 49 identical candles: one short of the 50-candle minimum. -/
def ex49 : List Candle := List.replicate 49 ⟨1, 1, 1, 1⟩

/-- 50 identical candles: a flat price series. -/
def flatCandles : List Candle := List.replicate 50 ⟨1, 1, 1, 1⟩

/-! ### Basic facts about the embedding -/

theorem length_rollingMean (n : ℕ) (s : List FVal) : (rollingMean n s).length = s.length := by
  simp [rollingMean]

theorem length_diffS (s : List ℚ) : (diffS s).length = s.length := by
  simp [diffS]

/-- If the rounded RSI is bullish (`> 55`) it cannot also be bearish (`< 45`). -/
theorem blt_bullish_not_bearish (v : FVal) :
    FVal.blt (FVal.num 55) v = true → FVal.blt v (FVal.num 45) = false := by
  cases v with
  | nan => intro h; rfl
  | num q =>
      simp only [FVal.blt, decide_eq_true_eq, decide_eq_false_iff_not]
      intro h
      linarith
  | pinf => intro h; rfl
  | ninf => intro h; simp [FVal.blt] at h

/-- The long and short entry conditions exclude each other: their RSI
thresholds (and EMA-buffer and trend conditions) are contradictory. -/
theorem long_short_exclusive (candles : List Candle) (p : ℚ) :
    (long_gate candles p && short_gate candles p) = false := by
  cases h : FVal.blt (FVal.num 55) (rsi_last candles) with
  | false => simp [long_gate, h]
  | true =>
      have h2 := blt_bullish_not_bearish _ h
      simp [short_gate, h2]

/-! ### C2: insufficient data -/

/-- C2: for every input with fewer than 50 candles the engine performs no
signal evaluation and returns the explicit insufficient-data outcome,
regardless of live price, toggle, or candle values. -/
theorem insufficient_data_below_50 (candles : List Candle) (live : Option ℚ)
    (toggle : Bool) (h : candles.length < 50) :
    analyze_coin candles live toggle = .insufficientData := by
  simp [analyze_coin, h]

theorem insufficient_data_below_50_witness :
    ex49.length < 50 ∧ analyze_coin ex49 (some 5) true = .insufficientData :=
  ⟨by decide, insufficient_data_below_50 ex49 (some 5) true (by decide)⟩

/-! ### C3: missing live price -/

/-- C3: with at least 50 candles but the symbol absent from the live-price
mapping, the engine returns the explicit missing-price outcome and emits no
signal; and every entry of the symbol list is still analyzed independently,
so the missing price cannot prevent the remaining symbols from being
processed. -/
theorem missing_price_outcome (sym : String) (prices : String → Option ℚ)
    (candlesOf : String → List Candle) (toggle : Bool)
    (symbols : List String) (i : ℕ)
    (hlen : 50 ≤ (candlesOf sym).length) (hmiss : prices sym = none)
    (hi : i < symbols.length) :
    analyze_coin (candlesOf sym) (prices sym) toggle = .noLivePrice ∧
    (run_all symbols prices candlesOf toggle).getD i .insufficientData =
      analyze_coin (candlesOf (symbols.getD i "")) (prices (symbols.getD i "")) toggle := by
  constructor
  · rw [hmiss]
    simp [analyze_coin, Nat.not_lt.mpr hlen]
  · have hi2 : i < (run_all symbols prices candlesOf toggle).length := by
      simpa [run_all] using hi
    rw [List.getD_eq_getElem _ _ hi2, List.getD_eq_getElem _ _ hi]
    simp [run_all]

theorem missing_price_outcome_witness :
    (50 ≤ ((fun _ : String => flatCandles) "A").length ∧
      (fun _ : String => (none : Option ℚ)) "A" = none ∧ 1 < (["A", "B"] : List String).length) ∧
    (analyze_coin ((fun _ : String => flatCandles) "A") ((fun _ : String => (none : Option ℚ)) "A") true = .noLivePrice ∧
      (run_all ["A", "B"] (fun _ => none) (fun _ => flatCandles) true).getD 1 .insufficientData =
        analyze_coin ((fun _ : String => flatCandles) ((["A", "B"] : List String).getD 1 ""))
          ((fun _ : String => (none : Option ℚ)) ((["A", "B"] : List String).getD 1 "")) true) :=
  ⟨⟨by decide, rfl, by decide⟩,
   missing_price_outcome "A" (fun _ => none) (fun _ => flatCandles) true ["A", "B"] 1
     (by decide) rfl (by decide)⟩

/-! ### C10: mutual exclusivity of the directional gates -/

/-- C10: at most one of the two directional gates can hold in a single
evaluation (their RSI thresholds are contradictory), and the engine never
classifies one evaluation as both long and short. -/
theorem directional_signals_exclusive :
    ∀ (candles : List Candle) (p : ℚ) (live : Option ℚ) (toggle : Bool),
    (long_gate candles p && short_gate candles p) = false ∧
    ((analyze_coin candles live toggle).isLongSignal &&
      (analyze_coin candles live toggle).isShortSignal) = false := by
  intro candles p live toggle
  refine ⟨long_short_exclusive candles p, ?_⟩
  have h : ∀ o : Outcome, (o.isLongSignal && o.isShortSignal) = false := by
    intro o
    match o with
    | .insufficientData => rfl
    | .noLivePrice => rfl
    | .analyzed s r => cases s <;> rfl
  exact h _

/-! ### C4: the low-volume downgrade -/

/-- C4: when the toggle requires high volume and volume is not high, a
directional signal whose gate holds is downgraded to the corresponding
"valid but low volume" variant; it is not suppressed to no-signal. -/
theorem low_volume_downgrades (candles : List Candle) (p : ℚ)
    (hlen : 50 ≤ candles.length) (hvol : high_volume_b candles = false) :
    (long_gate candles p = true →
      analyze_coin candles (some p) true =
        .analyzed .longLowVolume (some (long_risk candles p))) ∧
    (short_gate candles p = true →
      analyze_coin candles (some p) true =
        .analyzed .shortLowVolume (some (short_risk candles p))) := by
  have hnot : ¬ candles.length < 50 := by omega
  constructor
  · intro hg
    simp [analyze_coin, hnot, hg, hvol]
  · intro hg
    cases hl : long_gate candles p with
    | false => simp [analyze_coin, hnot, hl, hg, hvol]
    | true =>
        exfalso
        have hx := long_short_exclusive candles p
        rw [hl, hg] at hx
        simp at hx

theorem low_volume_downgrades_witness :
    (50 ≤ exLong.length ∧ high_volume_b exLong = false) ∧
    analyze_coin exLong (some 100) true =
      .analyzed .longLowVolume (some (long_risk exLong 100)) :=
  ⟨⟨by decide, by decide⟩,
   (low_volume_downgrades exLong 100 (by decide) (by decide)).1 (by decide)⟩

/-! ### C1: characterization of the long signal -/

/-- C1: with at least 50 candles and a live price, a long signal (full or
low-volume) is emitted exactly when live price clears both EMA buffers, the
engine's RSI reading exceeds 55, the 3-candle uptrend is confirmed and the
MACD line is above its signal line; and with the volume toggle false a
qualifying long is emitted as full long (no downgrade) regardless of volume. -/
theorem long_signal_characterization (candles : List Candle) (p : ℚ) (toggle : Bool)
    (hlen : 50 ≤ candles.length) :
    ((analyze_coin candles (some p) toggle).isLongSignal = true ↔
      (ema20_last candles * (1 + 1/1000) < p ∧
       ema50_last candles * (1 + 1/1000) < p ∧
       FVal.blt (FVal.num 55) (rsi_last candles) = true ∧
       trend_up_b candles = true ∧
       macd_signal_last candles < macd_last candles)) ∧
    (long_gate candles p = true →
      analyze_coin candles (some p) false =
        .analyzed .longFull (some (long_risk candles p))) := by
  have hnot : ¬ candles.length < 50 := by omega
  have hgate : long_gate candles p = true ↔
      (ema20_last candles * (1 + 1/1000) < p ∧
       ema50_last candles * (1 + 1/1000) < p ∧
       FVal.blt (FVal.num 55) (rsi_last candles) = true ∧
       trend_up_b candles = true ∧
       macd_signal_last candles < macd_last candles) := by
    simp [long_gate, Bool.and_eq_true, decide_eq_true_eq, and_assoc]
  constructor
  · rw [← hgate]
    cases hl : long_gate candles p with
    | true =>
        have hout : (analyze_coin candles (some p) toggle).isLongSignal = true := by
          simp only [analyze_coin, if_neg hnot, hl, if_true, Outcome.isLongSignal]
          split <;> rfl
        rw [hout]
    | false =>
        have hout : (analyze_coin candles (some p) toggle).isLongSignal = false := by
          cases hs : short_gate candles p with
          | true =>
              simp only [analyze_coin, if_neg hnot, hl, hs, Bool.false_eq_true,
                if_false, if_true, Outcome.isLongSignal]
              split <;> rfl
          | false =>
              simp [analyze_coin, hnot, hl, hs, Outcome.isLongSignal, Sig.isLong]
        rw [hout]
  · intro hg
    simp [analyze_coin, hnot, hg]

theorem long_signal_characterization_witness :
    50 ≤ exLong.length ∧
    analyze_coin exLong (some 100) false =
      .analyzed .longFull (some (long_risk exLong 100)) :=
  ⟨by decide,
   (long_signal_characterization exLong 100 false (by decide)).2 (by decide)⟩

/-! ### C5: the reported risk levels -/

/-- C5 (amended): when a directional gate fires, the reported entry range is
the one-sided 0.2% band from EMA20 in the trade direction — `[ema20,
ema20*1.002]` for long and `[ema20*0.998, ema20]` for short — the stop-loss
is live price ∓ 1.2×ATR and the take-profit live price ± 2×ATR, each reported
value rounded to 4 decimal places. -/
theorem risk_level_formulas (candles : List Candle) (p : ℚ) (toggle : Bool)
    (hlen : 50 ≤ candles.length) :
    (long_gate candles p = true →
      analyze_coin candles (some p) toggle =
        .analyzed (if high_volume_b candles || !toggle then .longFull else .longLowVolume)
          (some { entry_price_min := FVal.num (roundq 4 (ema20_last candles))
                , entry_price_max := FVal.num (roundq 4 (ema20_last candles * (1002/1000)))
                , stop_loss := FVal.roundF 4 (FVal.sub (FVal.num p)
                    (FVal.mul (FVal.num (6/5)) (atr_last candles)))
                , target_price := FVal.roundF 4 (FVal.add (FVal.num p)
                    (FVal.mul (FVal.num 2) (atr_last candles))) })) ∧
    (short_gate candles p = true →
      analyze_coin candles (some p) toggle =
        .analyzed (if high_volume_b candles || !toggle then .shortFull else .shortLowVolume)
          (some { entry_price_min := FVal.num (roundq 4 (ema20_last candles * (998/1000)))
                , entry_price_max := FVal.num (roundq 4 (ema20_last candles))
                , stop_loss := FVal.roundF 4 (FVal.add (FVal.num p)
                    (FVal.mul (FVal.num (6/5)) (atr_last candles)))
                , target_price := FVal.roundF 4 (FVal.sub (FVal.num p)
                    (FVal.mul (FVal.num 2) (atr_last candles))) })) := by
  have hnot : ¬ candles.length < 50 := by omega
  constructor
  · intro hg
    simp [analyze_coin, hnot, hg, long_risk]
  · intro hg
    cases hl : long_gate candles p with
    | false => simp [analyze_coin, hnot, hl, hg, short_risk]
    | true =>
        exfalso
        have hx := long_short_exclusive candles p
        rw [hl, hg] at hx
        simp at hx

theorem risk_level_formulas_witness :
    (50 ≤ exLong.length ∧ long_gate exLong 100 = true) ∧
    analyze_coin exLong (some 100) false =
      .analyzed (if high_volume_b exLong || !false then .longFull else .longLowVolume)
        (some { entry_price_min := FVal.num (roundq 4 (ema20_last exLong))
              , entry_price_max := FVal.num (roundq 4 (ema20_last exLong * (1002/1000)))
              , stop_loss := FVal.roundF 4 (FVal.sub (FVal.num 100)
                  (FVal.mul (FVal.num (6/5)) (atr_last exLong)))
              , target_price := FVal.roundF 4 (FVal.add (FVal.num 100)
                  (FVal.mul (FVal.num 2) (atr_last exLong))) }) :=
  ⟨⟨by decide, by decide⟩,
   (risk_level_formulas exLong 100 false (by decide)).1 (by decide)⟩

/-- C5 counterexample: on a concrete qualifying long the reported lower entry
bound is the (rounded) EMA20 itself — not the claim's two-sided band value
`ema20*0.998` (rounded or exact) — and rounding to 4 decimals moves it away
from the exact EMA20. -/
theorem risk_level_counterexample :
    analyze_coin exLong (some 100) false =
      .analyzed .longFull (some (long_risk exLong 100)) ∧
    (long_risk exLong 100).entry_price_min ≠
      FVal.num (roundq 4 (ema20_last exLong * (998/1000))) ∧
    (long_risk exLong 100).entry_price_min ≠
      FVal.num (ema20_last exLong * (998/1000)) ∧
    (long_risk exLong 100).entry_price_min ≠ FVal.num (ema20_last exLong) :=
  ⟨by decide, by decide, by decide, by decide⟩

/-! ### C7: the True Range and ATR -/

theorem fmax_num (x y : ℚ) :
    FVal.fmax (FVal.num x) (FVal.num y) = FVal.num (max x y) := by
  by_cases h : x < y
  · simp [FVal.fmax, FVal.blt, h, max_eq_right h.le]
  · simp [FVal.fmax, FVal.blt, h, max_eq_left (not_lt.mp h)]

theorem prev_close_getD (close : List ℚ) (i : ℕ) (hi : i < close.length) :
    (prev_close close).getD i FVal.nan =
      if i = 0 then FVal.nan else FVal.num (close.getD (i - 1) 0) := by
  have hl : i < (prev_close close).length := by simp [prev_close, hi]
  rw [List.getD_eq_getElem _ _ hl]
  simp [prev_close]

theorem trueRange_getD (high low close : List ℚ) (i : ℕ) (hi : i < close.length) :
    (trueRange high low close).getD i FVal.nan =
      if i = 0 then FVal.num (high.getD 0 0 - low.getD 0 0)
      else FVal.num (max (high.getD i 0 - low.getD i 0)
        (max (abs (high.getD i 0 - close.getD (i - 1) 0))
             (abs (low.getD i 0 - close.getD (i - 1) 0)))) := by
  have hl : i < (trueRange high low close).length := by simp [trueRange, hi]
  rw [List.getD_eq_getElem _ _ hl]
  simp only [trueRange, List.getElem_map, List.getElem_range]
  rw [prev_close_getD close i hi]
  by_cases h0 : i = 0
  · subst h0
    simp [fmaxRow, FVal.fabs, FVal.sub, FVal.add, FVal.neg]
  · simp only [h0, if_false]
    simp only [FVal.sub, FVal.neg, FVal.add, FVal.fabs]
    simp [fmaxRow, List.filter, fmax_num, max_assoc, ← sub_eq_add_neg]

/-- C7 (amended): ATR(14) is the 14-period rolling mean of True Range, where
True Range is max(high−low, `|high−prev close|`, `|low−prev close|`) for every
row with a previous close; the first row's True Range is not NaN/excluded but
equals high−low, because the pandas row-max skips the NaN prev-close terms. -/
theorem atr_true_range (high low close : List ℚ) (i : ℕ) (hi : i < close.length) :
    calculate_atr high low close 14 = rollingMean 14 (trueRange high low close) ∧
    (trueRange high low close).getD i FVal.nan =
      (if i = 0 then FVal.num (high.getD 0 0 - low.getD 0 0)
       else FVal.num (max (high.getD i 0 - low.getD i 0)
         (max (abs (high.getD i 0 - close.getD (i - 1) 0))
              (abs (low.getD i 0 - close.getD (i - 1) 0))))) :=
  ⟨rfl, trueRange_getD high low close i hi⟩

theorem atr_true_range_witness :
    (1 < ([2, 2] : List ℚ).length) ∧
    (trueRange [3, 2] [1, 1] [2, 2]).getD 1 FVal.nan = FVal.num 1 :=
  ⟨by decide, by
    rw [(atr_true_range [3, 2] [1, 1] [2, 2] 1 (by decide)).2]
    decide⟩

/-- C7 counterexample: the first row's True Range is high−low, not
NaN/excluded — so over 14 candles ATR(14) is already a number at index 13
(it would be NaN there if the first row were excluded). -/
theorem atr_first_row_counterexample :
    trueRange [3] [1] [2] = [FVal.num 2] ∧
    (calculate_atr (List.replicate 14 1) (List.replicate 14 1)
        (List.replicate 14 1) 14).getD 13 FVal.nan = FVal.num 0 ∧
    FVal.num 2 ≠ FVal.nan ∧ FVal.num (0 : ℚ) ≠ FVal.nan :=
  ⟨by decide, by decide, by decide, by decide⟩

/-! ### C6: the RSI formula and the zero-loss case -/

theorem length_rsiAvgGain (s : List ℚ) (p : ℕ) : (rsiAvgGain s p).length = s.length := by
  simp [rsiAvgGain, length_rollingMean, length_diffS]

theorem length_rsiAvgLoss (s : List ℚ) (p : ℕ) : (rsiAvgLoss s p).length = s.length := by
  simp [rsiAvgLoss, length_rollingMean, length_diffS]

theorem length_calculate_rsi (s : List ℚ) (p : ℕ) :
    (calculate_rsi s p).length = s.length := by
  simp [calculate_rsi, length_rsiAvgGain, length_rsiAvgLoss]

theorem calculate_rsi_getD (s : List ℚ) (p i : ℕ) (hi : i < s.length) :
    (calculate_rsi s p).getD i FVal.nan =
      FVal.sub (FVal.num 100) (FVal.div (FVal.num 100) (FVal.add (FVal.num 1)
        (FVal.div ((rsiAvgGain s p).getD i FVal.nan)
                  ((rsiAvgLoss s p).getD i FVal.nan)))) := by
  have h1 : i < (rsiAvgGain s p).length := by rw [length_rsiAvgGain]; exact hi
  have h2 : i < (rsiAvgLoss s p).length := by rw [length_rsiAvgLoss]; exact hi
  have h3 : i < (calculate_rsi s p).length := by rw [length_calculate_rsi]; exact hi
  rw [List.getD_eq_getElem _ _ h3, List.getD_eq_getElem _ _ h1, List.getD_eq_getElem _ _ h2]
  simp [calculate_rsi]

/-- C6 (amended): RSI is 100 − 100/(1+RS) with RS the ratio of the rolling
14-period simple means of positive and negative deltas; when the average loss
is zero, RSI is NaN exactly when the average gain is also zero, while a
positive average gain makes RS +infinity and RSI = 100 (a number, not NaN). -/
theorem rsi_zero_loss (s : List ℚ) (i : ℕ) (hi : i < s.length)
    (hloss : (rsiAvgLoss s 14).getD i FVal.nan = FVal.num 0) :
    ((calculate_rsi s 14).getD i FVal.nan =
      FVal.sub (FVal.num 100) (FVal.div (FVal.num 100) (FVal.add (FVal.num 1)
        (FVal.div ((rsiAvgGain s 14).getD i FVal.nan) (FVal.num 0))))) ∧
    ((rsiAvgGain s 14).getD i FVal.nan = FVal.num 0 →
      (calculate_rsi s 14).getD i FVal.nan = FVal.nan) ∧
    (∀ q : ℚ, (rsiAvgGain s 14).getD i FVal.nan = FVal.num q → 0 < q →
      (calculate_rsi s 14).getD i FVal.nan = FVal.num 100) := by
  have hr := calculate_rsi_getD s 14 i hi
  rw [hloss] at hr
  refine ⟨hr, ?_, ?_⟩
  · intro hg
    rw [hr, hg]
    decide
  · intro q hg hq
    rw [hr, hg]
    simp [FVal.div, FVal.add, FVal.sub, FVal.neg, hq]

/-- Fifteen strictly rising closes: every delta is +1. -/
def incSeries : List ℚ := [1, 2, 3, 4, 5, 6, 7, 8, 9, 10, 11, 12, 13, 14, 15]

/-- C6 counterexample: for strictly rising closes the 14-period average loss
at the last index is zero, yet RSI there is 100 — a number, not NaN — because
pandas evaluates a positive gain over a zero loss as +infinity. -/
theorem rsi_zero_loss_counterexample :
    (rsiAvgLoss incSeries 14).getD 14 FVal.nan = FVal.num 0 ∧
    (calculate_rsi incSeries 14).getD 14 FVal.nan = FVal.num 100 ∧
    FVal.num 100 ≠ FVal.nan :=
  ⟨by decide, by decide, by decide⟩

theorem rsi_zero_loss_witness :
    (14 < incSeries.length ∧ (rsiAvgLoss incSeries 14).getD 14 FVal.nan = FVal.num 0) ∧
    (calculate_rsi incSeries 14).getD 14 FVal.nan = FVal.num 100 :=
  ⟨⟨by decide, by decide⟩,
   (rsi_zero_loss incSeries 14 (by decide) (by decide)).2.2 1 (by decide) (by decide)⟩

/-! ### C9: the two EMA smoothing conventions -/

theorem ewmUnadjAux_replicate (a c : ℚ) :
    ∀ m, ewmUnadjAux a (List.replicate m c) c = List.replicate m c := by
  intro m
  induction m with
  | zero => rfl
  | succ k ih =>
      rw [List.replicate_succ]
      simp only [ewmUnadjAux]
      have hy : (1 - a) * c + a * c = c := by ring
      rw [hy, ih]

theorem ewmUnadj_replicate (span : ℕ) (c : ℚ) :
    ∀ n, ewmUnadj span (List.replicate n c) = List.replicate n c := by
  intro n
  cases n with
  | zero => rfl
  | succ k =>
      rw [List.replicate_succ]
      simp only [ewmUnadj]
      rw [ewmUnadjAux_replicate]

theorem ewmAdjAux_replicate (b c : ℚ) (hb : 0 ≤ b) :
    ∀ (m : ℕ) (d : ℚ), 0 ≤ d →
      ewmAdjAux b (List.replicate m c) (c * d) d = List.replicate m c := by
  intro m
  induction m with
  | zero => intro d hd; rfl
  | succ k ih =>
      intro d hd
      rw [List.replicate_succ]
      simp only [ewmAdjAux]
      have hd2 : (0:ℚ) < b * d + 1 := by positivity
      have hnum : b * (c * d) + c = c * (b * d + 1) := by ring
      rw [hnum, mul_div_assoc, div_self hd2.ne', mul_one]
      rw [ih (b * d + 1) (by positivity)]

theorem ewmAdj_replicate (span : ℕ) (c : ℚ) (hspan : 1 ≤ span) :
    ∀ n, ewmAdj span (List.replicate n c) = List.replicate n c := by
  intro n
  have hpos : (0:ℚ) < (span : ℚ) + 1 := by positivity
  have hble : 2 / ((span : ℚ) + 1) ≤ 1 := by
    rw [div_le_one hpos]
    have hc : (1:ℚ) ≤ (span : ℚ) := by exact_mod_cast hspan
    linarith
  have hb : (0:ℚ) ≤ 1 - 2 / ((span : ℚ) + 1) := by linarith
  have h0 := ewmAdjAux_replicate (1 - 2 / ((span : ℚ) + 1)) c hb n 0 le_rfl
  rw [mul_zero] at h0
  simpa [ewmAdj] using h0

/-- C9 (amended): the engine does not apply one EMA convention throughout —
`ema20`/`ema50` use pandas' default bias-adjusted weighting while the MACD
EMAs use the unadjusted recurrence, and the two disagree on some series (see
the counterexample); they do agree on every constant series. -/
theorem ema_conventions_agree_on_constant (span n : ℕ) (c : ℚ) (hspan : 1 ≤ span) :
    ewmAdj span (List.replicate n c) = ewmUnadj span (List.replicate n c) := by
  rw [ewmAdj_replicate span c hspan n, ewmUnadj_replicate span c n]

theorem ema_conventions_agree_on_constant_witness :
    1 ≤ 20 ∧ ewmAdj 20 (List.replicate 3 (5:ℚ)) = ewmUnadj 20 (List.replicate 3 (5:ℚ)) :=
  ⟨by decide, ema_conventions_agree_on_constant 20 3 5 (by decide)⟩

/-- C9 counterexample: on the closes `[0, 1]` the engine's `ema20` series
(bias-adjusted, the pandas default used at `df["ema20"]`) ends at 21/40
while the unadjusted convention used inside `calculate_macd` ends at 2/21:
the two conventions the program uses do not agree on every input series. -/
theorem ema_conventions_counterexample :
    ema20_series [⟨0,0,0,0⟩, ⟨1,1,1,1⟩] = ewmAdj 20 [0, 1] ∧
    (calculate_macd [0, 1] 12 26 9).1 =
      List.zipWith (fun a b => a - b) (ewmUnadj 12 [0, 1]) (ewmUnadj 26 [0, 1]) ∧
    ewmAdj 20 [0, 1] = [0, 21/40] ∧
    ewmUnadj 20 [0, 1] = [0, 2/21] ∧
    ewmAdj 20 [0, 1] ≠ ewmUnadj 20 [0, 1] :=
  ⟨rfl, rfl, by decide, by decide, by decide⟩

/-! ### C8: a flat price series -/

theorem close_of_const (candles : List Candle) (c : ℚ)
    (h : ∀ cd ∈ candles, cd.close = c) :
    close_of candles = List.replicate candles.length c := by
  rw [List.eq_replicate_iff]
  constructor
  · simp [close_of]
  · intro b hb
    simp only [close_of, List.mem_map] at hb
    obtain ⟨cd, hcd, hbc⟩ := hb
    rw [← hbc]
    exact h cd hcd

theorem diffS_replicate (n : ℕ) (c : ℚ) :
    diffS (List.replicate n c) =
      (List.range n).map (fun i => if i = 0 then FVal.nan else FVal.num 0) := by
  unfold diffS
  rw [List.length_replicate]
  apply List.map_congr_left
  intro i hi
  rw [List.mem_range] at hi
  by_cases h0 : i = 0
  · simp [h0]
  · rw [if_neg h0, if_neg h0]
    have h1 : i - 1 < n := by omega
    rw [List.getD_eq_getElem _ _ (by simpa using hi),
        List.getD_eq_getElem _ _ (by simpa using h1)]
    simp

theorem gain_replicate (n : ℕ) (c : ℚ) :
    (diffS (List.replicate n c)).map clipLower0 =
      (List.range n).map (fun i => if i = 0 then FVal.nan else FVal.num 0) := by
  rw [diffS_replicate, List.map_map]
  apply List.map_congr_left
  intro i hi
  by_cases h0 : i = 0 <;> simp [h0, clipLower0]

theorem loss_replicate (n : ℕ) (c : ℚ) :
    (diffS (List.replicate n c)).map negClipUpper0 =
      (List.range n).map (fun i => if i = 0 then FVal.nan else FVal.num 0) := by
  rw [diffS_replicate, List.map_map]
  apply List.map_congr_left
  intro i hi
  by_cases h0 : i = 0 <;> simp [h0, negClipUpper0]

theorem rollingMean_pad_zero_last (n : ℕ) (hn : 15 ≤ n) :
    (rollingMean 14 ((List.range n).map
        (fun i => if i = 0 then FVal.nan else FVal.num 0))).getD (n - 1) FVal.nan =
      FVal.num 0 := by
  set s := (List.range n).map (fun i => if i = 0 then FVal.nan else FVal.num 0) with hs
  have hslen : s.length = n := by simp [hs]
  have hl : n - 1 < (rollingMean 14 s).length := by
    rw [length_rollingMean, hslen]; omega
  rw [List.getD_eq_getElem _ _ hl]
  simp only [rollingMean, List.getElem_map, List.getElem_range]
  have hc1 : ¬ ((n - 1) + 1 < 14) := by omega
  rw [if_neg hc1]
  have hwin : windowAt 14 (n - 1) s = List.replicate 14 (FVal.num 0) := by
    apply List.ext_getElem
    · simp [windowAt, hslen]
      omega
    · intro j h1 h2
      rw [List.getElem_replicate]
      simp only [windowAt] at h1 ⊢
      simp only [List.getElem_take, List.getElem_drop]
      have hne : ¬ ((n - 1) + 1 - 14 + j = 0) := by
        have h3 := h1
        simp only [List.length_take, List.length_drop, hslen, lt_inf_iff] at h3
        omega
      simp only [hs, List.getElem_map, List.getElem_range, if_neg hne]
  rw [hwin]
  decide

theorem rsi_replicate_last (n : ℕ) (c : ℚ) (hn : 15 ≤ n) :
    (calculate_rsi (List.replicate n c) 14).getD (n - 1) FVal.nan = FVal.nan := by
  have hi : n - 1 < (List.replicate n c).length := by simp; omega
  rw [calculate_rsi_getD _ 14 (n - 1) hi]
  have hg : (rsiAvgGain (List.replicate n c) 14).getD (n - 1) FVal.nan = FVal.num 0 := by
    unfold rsiAvgGain
    rw [gain_replicate]
    exact rollingMean_pad_zero_last n hn
  have hlz : (rsiAvgLoss (List.replicate n c) 14).getD (n - 1) FVal.nan = FVal.num 0 := by
    unfold rsiAvgLoss
    rw [loss_replicate]
    exact rollingMean_pad_zero_last n hn
  rw [hg, hlz]
  decide

theorem rsi_last_const (candles : List Candle) (c : ℚ) (hlen : 50 ≤ candles.length)
    (h : ∀ cd ∈ candles, cd.close = c) : rsi_last candles = FVal.nan := by
  unfold rsi_last
  rw [close_of_const candles c h, rsi_replicate_last candles.length c (by omega)]
  rfl

/-- C8: on a flat close series of length at least 50 with a live price
present, the engine classifies the instrument as no-signal: the RSI is NaN
(zero average gain over zero average loss), NaN comparisons are false, so
neither directional gate can fire — and the embedded evaluation is total, so
no error is raised. -/
theorem flat_series_no_signal (candles : List Candle) (c p : ℚ) (toggle : Bool)
    (hlen : 50 ≤ candles.length) (h : ∀ cd ∈ candles, cd.close = c) :
    analyze_coin candles (some p) toggle = .analyzed .noSignal none := by
  have hnot : ¬ candles.length < 50 := by omega
  have hrsi := rsi_last_const candles c hlen h
  have hlong : long_gate candles p = false := by
    simp [long_gate, hrsi, FVal.blt]
  have hshort : short_gate candles p = false := by
    simp [short_gate, hrsi, FVal.blt]
  simp [analyze_coin, hnot, hlong, hshort]

theorem flat_series_no_signal_witness :
    (50 ≤ flatCandles.length ∧ ∀ cd ∈ flatCandles, cd.close = 1) ∧
    analyze_coin flatCandles (some 2) true = .analyzed .noSignal none :=
  ⟨⟨by decide, by decide⟩,
   flat_series_no_signal flatCandles 1 2 true (by decide) (by decide)⟩
